import Mathlib

/-!
Shallow embedding of `app/app.go` of the xpx-cosmos repository: the
module-composition and genesis-lifecycle layer of the Democoin-style
application.  The file models the application construction
(`NewDemocoinApp`, `MakeCodec`), the genesis initializer returned by
`initChainerFn`, and `ExportAppStateAndValidators`, together with the
collaborator contracts the source calls into (store mounting, sealing,
route registration, the account keeper, and the cool and pow modules).
Parts of the repository that the source calls but whose files are not
in `src/` (the `types`, `cool` and `pow` packages) are modelled from the
specification and say so in their doc comments.
-/

set_option autoImplicit false

namespace XpxCosmos

/-! ## Store keys (sdk.KVStoreKey / sdk.TransientStoreKey) -/

/-- A store key: an immutable name identifying one isolated persistent
namespace, together with whether it is the transient variant
(`sdk.NewKVStoreKey` versus `sdk.NewTransientStoreKey`). -/
structure StoreKey where
  name : String
  transient : Bool
deriving DecidableEq, Repr, Inhabited

/-- `sdk.NewKVStoreKey` -/
def NewKVStoreKey (n : String) : StoreKey := ⟨n, false⟩

/-- `sdk.NewTransientStoreKey` -/
def NewTransientStoreKey (n : String) : StoreKey := ⟨n, true⟩

/-- `bam.MainStoreKey`, the name of the base application main store in the
vendored SDK. -/
def MainStoreKeyName : String := "main"

/-- `auth.StoreKey`, the name of the account store in the vendored SDK. -/
def AuthStoreKeyName : String := "acc"

/-- `staking.StoreKey`, the name of the staking store in the vendored SDK. -/
def StakingStoreKeyName : String := "staking"

/-! ## Coins and accounts -/

/-- A typed coin amount (denomination and amount). -/
structure Coin where
  denom : String
  amount : Int
deriving DecidableEq, Repr, Inhabited

/-- An ordered list of typed coin amounts. -/
abbrev Coins := List Coin

/-- A fixed-width account identifier, modelled as a string. -/
abbrev Address := String

/-- Modelled from the spec: `types.AppAccount`, the internal account
representation held in the account store (the `types` package is not under
`src/`).  Per the account representation boundary of the spec it carries the
address and the ordered list of coin amounts that cross the genesis and
export boundaries. -/
structure AppAccount where
  address : Address
  coins : Coins
deriving DecidableEq, Repr, Inhabited

/-- Modelled from the spec: `types.GenesisAccount`, the boundary shape of an
account inside a genesis document — address plus ordered list of typed coin
amounts (the `types` package is not under `src/`). -/
structure GenesisAccount where
  address : Address
  coins : Coins
deriving DecidableEq, Repr, Inhabited

/-- Modelled from the spec: `types.GenesisAccount.ToAppAccount` (the `types`
package is not under `src/`).  The boundary map is lossless; conversion fails
exactly when the declared address is not a well-formed identifier, modelled
as the empty string. -/
def GenesisAccount.ToAppAccount (g : GenesisAccount) : Except String AppAccount :=
  if g.address = "" then .error "invalid address" else .ok ⟨g.address, g.coins⟩

/-- The boundary-shape record that `ExportAppStateAndValidators` builds for
one account: its address and its coins (lines 177-180 of `app/app.go`). -/
def AppAccount.toGenesisAccount (a : AppAccount) : GenesisAccount :=
  ⟨a.address, a.coins⟩

/-! ## Module genesis blocks (cool and pow packages, modelled from the spec) -/

/-- Modelled from the spec: the proof-of-work module genesis block — the
difficulty and count parameters the pow keeper maintains in its own store
(the `pow` package is not under `src/`). -/
structure POWGenesis where
  difficulty : Int
  count : Int
deriving DecidableEq, Repr, Inhabited

/-- Modelled from the spec: the cool module genesis block, a per-module
parameter block carried through initialization and export (the `cool`
package is not under `src/`). -/
structure CoolGenesis where
  trend : String
deriving DecidableEq, Repr, Inhabited

/-- Modelled from the spec: `types.GenesisState`, the genesis document — one
field per module the application persists: the accounts list, the pow block
and the cool block (the `types` package is not under `src/`).  This is the
exact shape `ExportAppStateAndValidators` rebuilds at lines 186-190. -/
structure GenesisState where
  accounts : List GenesisAccount
  powGenesis : POWGenesis
  coolGenesis : CoolGenesis
deriving DecidableEq, Repr, Inhabited

/-! ## Application state -/

/-- The combined contents of the mounted module stores.  The account store
holds the accounts in store order; the cool and pow stores hold their module
state once initialized; the ibc and staking stores hold opaque entries that
the genesis controller never touches. -/
structure ChainState where
  accounts : List AppAccount
  powState : Option POWGenesis
  coolState : Option CoolGenesis
  ibcState : List String
  stakingState : List String
deriving DecidableEq, Repr, Inhabited

/-- The state of a fresh chain before any genesis document is applied. -/
def ChainState.initial : ChainState := ⟨[], none, none, [], []⟩

/-- Modelled from the spec: `auth.AccountKeeper.SetAccount`, an idempotent
upsert keyed by address — it replaces the account stored under the same
address, or appends the account in store order when the address is new. -/
def setAccount (store : List AppAccount) (a : AppAccount) : List AppAccount :=
  if store.any (fun b => b.address = a.address) then
    store.map (fun b => if b.address = a.address then a else b)
  else
    store ++ [a]

/-- Modelled from the spec: `cool.InitGenesis` stores the cool genesis block
into the cool keeper store, rejecting an initial state with an empty trend
(the `cool` package is not under `src/`). -/
def coolInitGenesis (g : CoolGenesis) : Except String CoolGenesis :=
  if g.trend = "" then .error "cool: empty trend" else .ok g

/-- Modelled from the spec: `pow.InitGenesis` stores the difficulty and count
parameters into the pow keeper store, rejecting an initial state whose
difficulty is below one or whose count is negative (the `pow` package is not
under `src/`). -/
def powInitGenesis (g : POWGenesis) : Except String POWGenesis :=
  if g.difficulty < 1 then .error "pow: difficulty below one"
  else if g.count < 0 then .error "pow: negative count"
  else .ok g

/-- Modelled from the spec: `cool.ExportGenesis` reads the cool module state
back out of its store (the `cool` package is not under `src/`). -/
def coolExportGenesis (st : ChainState) : CoolGenesis :=
  st.coolState.getD ⟨""⟩

/-- Modelled from the spec: `pow.ExportGenesis` reads the difficulty and
count parameters back out of the pow store (the `pow` package is not under
`src/`). -/
def powExportGenesis (st : ChainState) : POWGenesis :=
  st.powState.getD ⟨0, 0⟩

/-! ## Genesis bytes and the codec decode collaborator -/

/-- The raw `req.AppStateBytes` handed to the init chainer: either the
serialization of a genesis state, or malformed bytes. -/
inductive AppStateBytes where
  | wellFormed (g : GenesisState)
  | malformed (msg : String)
deriving DecidableEq, Repr, Inhabited

/-- The codec collaborator `app.cdc.UnmarshalJSON` applied to the genesis
document: well-formed bytes decode to the state they serialize, malformed
bytes fail. -/
def unmarshalGenesis (b : AppStateBytes) : Except String GenesisState :=
  match b with
  | .wellFormed g => .ok g
  | .malformed m => .error m

/-! ## The init chainer (lines 133-168 of app/app.go) -/

/-- The account loop of the init chainer (lines 144-151): convert each listed
genesis account via `ToAppAccount` and `SetAccount` it, stopping with the
panic of the first failing conversion. -/
def setGenesisAccounts (store : List AppAccount) :
    List GenesisAccount → Except String (List AppAccount)
  | [] => .ok store
  | gacc :: rest => do
    let acc ← gacc.ToAppAccount
    setGenesisAccounts (setAccount store acc) rest

/-- The closure returned by `initChainerFn` (lines 134-167): decode the
genesis document, set every listed account, then run the cool and pow
module `InitGenesis`.  A `.error` result models the `panic` calls: the
process halts and no resulting state exists. -/
def initChainer (st : ChainState) (req : AppStateBytes) : Except String ChainState := do
  let genesisState ← unmarshalGenesis req
  let accs ← setGenesisAccounts st.accounts genesisState.accounts
  let coolG ← coolInitGenesis genesisState.coolGenesis
  let powG ← powInitGenesis genesisState.powGenesis
  .ok { st with accounts := accs, coolState := some coolG, powState := some powG }

/-! ## Export (lines 171-196 of app/app.go) -/

/-- `tmtypes.GenesisValidator`, the validator entries of the export return
value. -/
structure GenesisValidator where
  address : Address
  power : Int
deriving DecidableEq, Repr, Inhabited

/-- The pair returned by `ExportAppStateAndValidators`: the genesis document
(before the external JSON marshalling step) and the validator list. -/
structure ExportResult where
  appState : GenesisState
  validators : List GenesisValidator
deriving DecidableEq, Repr, Inhabited

/-- `ExportAppStateAndValidators` (lines 171-196): iterate the account store
building one boundary record per account, assemble the genesis state from
the accounts plus the pow and cool exports, and return it; the named
`validators` return value is never assigned. -/
def exportAppStateAndValidators (st : ChainState) : ExportResult :=
  { appState :=
      { accounts := st.accounts.map AppAccount.toGenesisAccount
        powGenesis := powExportGenesis st
        coolGenesis := coolExportGenesis st }
    validators := [] }

/-! ## The codec registry (MakeCodec, lines 112-129) -/

/-- Modelled from the spec: the codec registry collaborator — a closed set of
registered interface categories and concrete type tags, with a one-way seal
after which no further registration is permitted. -/
structure Codec where
  interfaces : List String
  concreteTags : List String
  isSealed : Bool
deriving DecidableEq, Repr, Inhabited

/-- `codec.New`: a fresh, unsealed codec registry. -/
def Codec.new : Codec := ⟨[], [], false⟩

/-- `RegisterInterface`: register an interface category.  After sealing the
registration fails with a configuration error; the returned registry is the
unchanged input, so a failed call leaves the existing registry intact. -/
def Codec.registerInterface (c : Codec) (category : String) : Except String Codec × Codec :=
  if c.isSealed then (.error "codec registry is sealed", c)
  else
    let c2 := { c with interfaces := c.interfaces ++ [category] }
    (.ok c2, c2)

/-- `RegisterConcrete`: register a concrete type under a stable string tag.
After sealing the registration fails with a configuration error; the
returned registry is the unchanged input. -/
def Codec.registerConcrete (c : Codec) (tag : String) : Except String Codec × Codec :=
  if c.isSealed then (.error "codec registry is sealed", c)
  else
    let c2 := { c with concreteTags := c.concreteTags ++ [tag] }
    (.ok c2, c2)

/-- `cdc.Seal`: the one-way transition making the registry immutable. -/
def Codec.seal (c : Codec) : Codec := { c with isSealed := true }

/-- `MakeCodec` (lines 112-129): register the crypto, message and account
types of every wired module — one registration per `RegisterCodec` call of
the source, under the tag of the registering module — then register the
`auth.Account` interface and the concrete `xpx-cosmos/Account` type, and
seal the codec before returning it. -/
def MakeCodec : Except String Codec := do
  let cdc := Codec.new
  let cdc ← (cdc.registerConcrete "tendermint/crypto").1
  let cdc ← (cdc.registerConcrete "cosmos-sdk/msgs").1
  let cdc ← (cdc.registerConcrete "cool/msgs").1
  let cdc ← (cdc.registerConcrete "pow/msgs").1
  let cdc ← (cdc.registerConcrete "bank/msgs").1
  let cdc ← (cdc.registerConcrete "ibc/msgs").1
  let cdc ← (cdc.registerConcrete "simplestaking/msgs").1
  let cdc ← (cdc.registerInterface "auth/Account").1
  let cdc ← (cdc.registerConcrete "xpx-cosmos/Account").1
  .ok cdc.seal

/-! ## The base application collaborator (bam.BaseApp) -/

/-- Modelled from the spec: the configuration surface of the base
application collaborator — the route table, the mounted store keys, the
ante handler and init chainer slots, and the one-way seal.  Every mutation
after sealing fails with a configuration error. -/
structure BaseApp where
  appName : String
  routes : List String
  mounted : List StoreKey
  anteHandlerSet : Bool
  initChainerSet : Bool
  isSealed : Bool
deriving DecidableEq, Repr, Inhabited

/-- `bam.NewBaseApp`: a fresh, unsealed base application with no routes and
no mounted stores. -/
def BaseApp.new (n : String) : BaseApp := ⟨n, [], [], false, false, false⟩

/-- `Router().AddRoute`: register the handler of one route name.  Fails with
a configuration error, leaving the route table unchanged, when the table is
sealed or the name is already registered. -/
def BaseApp.addRoute (app : BaseApp) (r : String) : Except String BaseApp × BaseApp :=
  if app.isSealed then (.error "router is sealed", app)
  else if r ∈ app.routes then (.error "route already registered", app)
  else
    let app2 := { app with routes := app.routes ++ [r] }
    (.ok app2, app2)

/-- `MountStores`: mount the given store keys into the persistence layer.
Fails with a configuration error, mounting nothing, after sealing. -/
def BaseApp.mountStores (app : BaseApp) (ks : List StoreKey) : Except String BaseApp × BaseApp :=
  if app.isSealed then (.error "application is sealed", app)
  else
    let app2 := { app with mounted := app.mounted ++ ks }
    (.ok app2, app2)

/-- `SetAnteHandler`: configure the ante handler collaborator.  Fails after
sealing. -/
def BaseApp.setAnteHandler (app : BaseApp) : Except String BaseApp × BaseApp :=
  if app.isSealed then (.error "application is sealed", app)
  else
    let app2 := { app with anteHandlerSet := true }
    (.ok app2, app2)

/-- `SetInitChainer`: configure the genesis initializer.  Fails after
sealing. -/
def BaseApp.setInitChainer (app : BaseApp) : Except String BaseApp × BaseApp :=
  if app.isSealed then (.error "application is sealed", app)
  else
    let app2 := { app with initChainerSet := true }
    (.ok app2, app2)

/-- `app.Seal`: the one-way transition freezing stores and routes. -/
def BaseApp.sealApp (app : BaseApp) : BaseApp := { app with isSealed := true }

/-- The outcome of the persistence collaborator when
`LoadLatestVersion` replays the latest committed version. -/
inductive LoadResult where
  | ok
  | failure (msg : String)
deriving DecidableEq, Repr, Inhabited

/-- `LoadLatestVersion` against the persistence collaborator. -/
def BaseApp.loadLatestVersion (app : BaseApp) (load : LoadResult) : Except String BaseApp :=
  match load with
  | .ok => .ok app
  | .failure e => .error e

/-! ## The DemocoinApp shell (lines 34-109) -/

/-- `DemocoinApp` (lines 34-56): the base application plus the codec, the
seven declared store keys, and the store key each keeper was constructed
with. -/
structure DemocoinApp where
  baseApp : BaseApp
  cdc : Codec
  capKeyMainStore : StoreKey
  capKeyAccountStore : StoreKey
  capKeyPowStore : StoreKey
  capKeyIBCStore : StoreKey
  capKeyStakingStore : StoreKey
  keyParams : StoreKey
  tkeyParams : StoreKey
  accountKeeperKey : StoreKey
  coolKeeperKey : StoreKey
  powKeeperKey : StoreKey
  ibcMapperKey : StoreKey
  stakingKeeperKey : StoreKey
  paramsKeeperKey : StoreKey
  paramsKeeperTKey : StoreKey
deriving DecidableEq, Repr, Inhabited

/-- The application name constant (line 24). -/
def appName : String := "XpxCosmos"

/-- The seven store keys a `DemocoinApp` declares (lines 67-73). -/
def DemocoinApp.declaredKeys (app : DemocoinApp) : List StoreKey :=
  [app.capKeyMainStore, app.capKeyAccountStore, app.capKeyPowStore,
   app.capKeyIBCStore, app.capKeyStakingStore, app.keyParams, app.tkeyParams]

/-- The store key each of the six store-owning module keepers was
constructed with (lines 76-91): account, cool, pow, ibc, staking, params. -/
def DemocoinApp.moduleKeeperKeys (app : DemocoinApp) : List StoreKey :=
  [app.accountKeeperKey, app.coolKeeperKey, app.powKeeperKey,
   app.ibcMapperKey, app.stakingKeeperKey, app.paramsKeeperKey]

/-- `NewDemocoinApp` (lines 58-109): build the codec, declare the store
keys, construct each keeper with its key, register the bank, ibc and
simplestaking routes, set the init chainer, mount the main, account, pow,
ibc and staking stores, set the ante handler, load the latest persisted
version — exiting the process on failure, modelled as `.error` — and seal
the application before returning it. -/
def NewDemocoinApp (load : LoadResult) : Except String DemocoinApp := do
  let cdc ← MakeCodec
  let keyMain := NewKVStoreKey MainStoreKeyName
  let keyAccount := NewKVStoreKey AuthStoreKeyName
  let keyPow := NewKVStoreKey "pow"
  let keyIBC := NewKVStoreKey "ibc"
  let keyStaking := NewKVStoreKey StakingStoreKeyName
  let keyParams := NewKVStoreKey "params"
  let tkeyParams := NewTransientStoreKey "transient_params"
  let base := BaseApp.new appName
  let base ← (base.addRoute "bank").1
  let base ← (base.addRoute "ibc").1
  let base ← (base.addRoute "simplestaking").1
  let base ← (base.setInitChainer).1
  let base ← (base.mountStores [keyMain, keyAccount, keyPow, keyIBC, keyStaking]).1
  let base ← (base.setAnteHandler).1
  let base ← base.loadLatestVersion load
  .ok
    { baseApp := base.sealApp
      cdc := cdc
      capKeyMainStore := keyMain
      capKeyAccountStore := keyAccount
      capKeyPowStore := keyPow
      capKeyIBCStore := keyIBC
      capKeyStakingStore := keyStaking
      keyParams := keyParams
      tkeyParams := tkeyParams
      accountKeeperKey := keyAccount
      coolKeeperKey := keyMain
      powKeeperKey := keyPow
      ibcMapperKey := keyIBC
      stakingKeeperKey := keyStaking
      paramsKeeperKey := keyParams
      paramsKeeperTKey := tkeyParams }

/-- The application value `NewDemocoinApp` returns when loading the latest
version succeeds. -/
def builtApp : DemocoinApp := (NewDemocoinApp LoadResult.ok).toOption.getD default

/-! ## Transaction execution (the dispatch path, modelled from the spec) -/

/-- A transaction: its declared route name and an opaque message body. -/
structure Tx where
  route : String
  msg : String
deriving DecidableEq, Repr, Inhabited

/-- The outcome of executing one transaction. -/
inductive TxResult where
  | done (log : String)
  | rejected (err : String)
deriving DecidableEq, Repr, Inhabited

/-- The observable trace of one transaction execution: its result, how many
times the ante handler ran, and whether a route handler ran. -/
structure TxTrace where
  result : TxResult
  anteRuns : Nat
  handlerRan : Bool
deriving DecidableEq, Repr, Inhabited

/-- Modelled from the spec: the transaction execution path of the base
application collaborator that `SetAnteHandler` (line 100) configures — the
ante handler configured at construction runs exactly once before route
lookup; if it fails the transaction is rejected with the error of the ante
handler and no route handler is invoked; otherwise the single handler of
the declared route runs, and an unknown route rejects the transaction. -/
def runTx (ante : Tx → Except String Unit) (handlers : String → Option (Tx → TxResult))
    (tx : Tx) : TxTrace :=
  match ante tx with
  | .error e => { result := .rejected e, anteRuns := 1, handlerRan := false }
  | .ok _ =>
    match handlers tx.route with
    | none => { result := .rejected "no such route", anteRuns := 1, handlerRan := false }
    | some h => { result := h tx, anteRuns := 1, handlerRan := true }

/-! ## Example inputs used by the witnesses -/

/-- The example genesis document of the spec: two accounts and
proof-of-work difficulty one. -/
def exampleGenesis : GenesisState :=
  ⟨[⟨"addr1", [⟨"mycoin", 100⟩]⟩, ⟨"addr2", []⟩], ⟨1, 0⟩, ⟨"ice-cold"⟩⟩

/-- The state a fresh chain reaches after initializing from
`exampleGenesis`. -/
def exampleInitState : ChainState :=
  (initChainer ChainState.initial (.wellFormed exampleGenesis)).toOption.getD default

/-! ## Helper lemmas -/

lemma except_isOk_iff {ε α : Type} (e : Except ε α) :
    e.isOk = true ↔ ∃ b, e = .ok b := by
  cases e <;> simp [Except.isOk, Except.toBool]

lemma except_bind_isOk {ε α β : Type} (e : Except ε α) (f : α → Except ε β) :
    (e >>= f).isOk = true ↔ ∃ a, e = .ok a ∧ (f a).isOk = true := by
  cases e <;> simp [Bind.bind, Except.bind, Except.isOk, Except.toBool]

/-- Setting a batch of genesis accounts with well-formed, pairwise distinct
addresses, all fresh for the store, appends their converted forms in
order. -/
lemma setGenesisAccounts_append (accs : List GenesisAccount) :
    ∀ store : List AppAccount,
    (∀ a ∈ accs, a.address ≠ "") →
    (∀ a ∈ accs, ∀ b ∈ store, b.address ≠ a.address) →
    (accs.map GenesisAccount.address).Nodup →
    setGenesisAccounts store accs =
      .ok (store ++ accs.map fun a => ⟨a.address, a.coins⟩) := by
  induction accs with
  | nil => intro store _ _ _; simp [setGenesisAccounts]
  | cons g rest ih =>
    intro store hv hd hnd
    have hg : g.ToAppAccount = .ok ⟨g.address, g.coins⟩ := by
      simp [GenesisAccount.ToAppAccount, hv g (by simp)]
    have hfresh : store.any (fun b => b.address = g.address) = false := by
      simp only [List.any_eq_false, decide_eq_true_eq]
      exact fun b hb => hd g (by simp) b hb
    have hset : setAccount store ⟨g.address, g.coins⟩ =
        store ++ [⟨g.address, g.coins⟩] := by
      simp [setAccount, hfresh]
    have hnd2 : g.address ∉ rest.map GenesisAccount.address ∧
        (rest.map GenesisAccount.address).Nodup := by
      rw [List.map_cons] at hnd
      exact List.nodup_cons.mp hnd
    have hd2 : ∀ a ∈ rest, ∀ b ∈ store ++ [(⟨g.address, g.coins⟩ : AppAccount)],
        b.address ≠ a.address := by
      intro a ha b hb
      rcases List.mem_append.mp hb with hb1 | hb2
      · exact hd a (by simp [ha]) b hb1
      · have hb3 : b = (⟨g.address, g.coins⟩ : AppAccount) := by simpa using hb2
        subst hb3
        intro hcontra
        have hmem : a.address ∈ rest.map GenesisAccount.address :=
          List.mem_map_of_mem GenesisAccount.address ha
        rw [← hcontra] at hmem
        exact hnd2.1 hmem
    have := ih (store ++ [⟨g.address, g.coins⟩])
      (fun a ha => hv a (by simp [ha])) hd2 hnd2.2
    simp only [setGenesisAccounts, hg, Bind.bind, Except.bind, hset, this,
      List.map_cons, List.append_assoc, List.singleton_append]

/-- Converting to the internal representation and back out across the export
boundary is the identity on boundary records. -/
lemma map_toGenesis_of_map_toApp (l : List GenesisAccount) :
    (l.map fun a => AppAccount.mk a.address a.coins).map AppAccount.toGenesisAccount = l := by
  induction l with
  | nil => rfl
  | cons a rest ih => simp [AppAccount.toGenesisAccount, ih]

/-- The account loop succeeds exactly when every listed account converts. -/
lemma setGenesisAccounts_isOk (accs : List GenesisAccount) :
    ∀ store : List AppAccount,
    (setGenesisAccounts store accs).isOk = true ↔
      ∀ a ∈ accs, (a.ToAppAccount).isOk = true := by
  induction accs with
  | nil => intro store; simp [setGenesisAccounts, Except.isOk, Except.toBool]
  | cons g rest ih =>
    intro store
    cases hg : g.ToAppAccount with
    | error e =>
      simp [setGenesisAccounts, hg, Bind.bind, Except.bind, Except.isOk,
        Except.toBool, List.forall_mem_cons]
    | ok acc =>
      have hstep : setGenesisAccounts store (g :: rest) =
          setGenesisAccounts (setAccount store acc) rest := by
        simp [setGenesisAccounts, hg, Bind.bind, Except.bind]
      rw [hstep, ih]
      simp [List.forall_mem_cons, hg, Except.isOk, Except.toBool]

lemma except_isOk_ok {ε α : Type} (a : α) : (Except.ok a : Except ε α).isOk = true := rfl

/-- The three fallible steps of the init chainer all succeeding on a genesis
input: the document decodes, every listed account converts, and the cool and
pow modules accept their initial state. -/
def genesisStepsOk (req : AppStateBytes) : Prop :=
  ∃ g, unmarshalGenesis req = .ok g ∧
    (∀ a ∈ g.accounts, (a.ToAppAccount).isOk = true) ∧
    (coolInitGenesis g.coolGenesis).isOk = true ∧
    (powInitGenesis g.powGenesis).isOk = true

/-! ## The claims -/

/-- Claim C1: genesis round trip — initializing a fresh chain from a valid
genesis document G and exporting the reached application state yields G
restricted to the fields the modules persist: the exported accounts list is
a permutation of the listed accounts (same addresses, same balances), and
the proof-of-work and cool module parameters are identical.  A valid G has
well-formed pairwise-distinct account addresses and module states the cool
and pow modules accept. -/
theorem genesis_round_trip (g : GenesisState)
    (haddr : ∀ a ∈ g.accounts, a.address ≠ "")
    (hnodup : (g.accounts.map GenesisAccount.address).Nodup)
    (hcool : g.coolGenesis.trend ≠ "")
    (hdiff : 1 ≤ g.powGenesis.difficulty) (hcount : 0 ≤ g.powGenesis.count) :
    ∃ st, initChainer ChainState.initial (.wellFormed g) = .ok st ∧
      (exportAppStateAndValidators st).appState.accounts.Perm g.accounts ∧
      (exportAppStateAndValidators st).appState.powGenesis = g.powGenesis ∧
      (exportAppStateAndValidators st).appState.coolGenesis = g.coolGenesis := by
  have hset := setGenesisAccounts_append g.accounts [] haddr
    (by intro a _ b hb; cases hb) hnodup
  have hcoolok : coolInitGenesis g.coolGenesis = .ok g.coolGenesis := by
    simp [coolInitGenesis, hcool]
  have hpowok : powInitGenesis g.powGenesis = .ok g.powGenesis := by
    rw [powInitGenesis, if_neg (by omega), if_neg (by omega)]
  refine ⟨⟨g.accounts.map fun a => ⟨a.address, a.coins⟩,
      some g.powGenesis, some g.coolGenesis, [], []⟩, ?_, ?_, rfl, rfl⟩
  · simp [initChainer, unmarshalGenesis, Bind.bind, Except.bind, ChainState.initial,
      hset, hcoolok, hpowok]
  · have h2 := map_toGenesis_of_map_toApp g.accounts
    simp [exportAppStateAndValidators, h2]

/-- Witness for Claim C1 at the example genesis document of the spec. -/
theorem genesis_round_trip_witness :
    ∃ st, initChainer ChainState.initial (.wellFormed exampleGenesis) = .ok st ∧
      (exportAppStateAndValidators st).appState.accounts.Perm exampleGenesis.accounts ∧
      (exportAppStateAndValidators st).appState.powGenesis = exampleGenesis.powGenesis ∧
      (exportAppStateAndValidators st).appState.coolGenesis = exampleGenesis.coolGenesis :=
  genesis_round_trip exampleGenesis (by decide) (by decide) (by decide)
    (by decide) (by decide)

/-- Claim C2: the init chainer completes normally exactly when the genesis
document decodes, every listed account converts to an application account,
and the cool and pow module initializers accept their state; any failure is
a panic (modelled as the `.error` outcome), after which no resulting chain
state exists, so a partially-initialized state is never exposed. -/
theorem initChainer_fatal_unless_all_ok (st : ChainState) (req : AppStateBytes) :
    (initChainer st req).isOk = true ↔ genesisStepsOk req := by
  cases req with
  | malformed m =>
    constructor
    · intro h
      simp [initChainer, unmarshalGenesis, Bind.bind, Except.bind, Except.isOk,
        Except.toBool] at h
    · rintro ⟨g, hg, -⟩
      simp [unmarshalGenesis] at hg
  | wellFormed g =>
    have h1 : initChainer st (.wellFormed g) =
        (setGenesisAccounts st.accounts g.accounts >>= fun accs =>
         coolInitGenesis g.coolGenesis >>= fun coolG =>
         powInitGenesis g.powGenesis >>= fun powG =>
         Except.ok { st with accounts := accs, coolState := some coolG, powState := some powG }) := rfl
    rw [h1]
    simp only [except_bind_isOk]
    constructor
    · rintro ⟨accs, hacc, coolG, hc, powG, hp, -⟩
      refine ⟨g, rfl, ?_, ?_, ?_⟩
      · exact (setGenesisAccounts_isOk g.accounts st.accounts).mp
          ((except_isOk_iff _).mpr ⟨accs, hacc⟩)
      · exact (except_isOk_iff _).mpr ⟨coolG, hc⟩
      · exact (except_isOk_iff _).mpr ⟨powG, hp⟩
    · rintro ⟨g2, hg2, hconv, hc, hp⟩
      have hg2eq : g2 = g := by
        simp only [unmarshalGenesis, Except.ok.injEq] at hg2
        exact hg2.symm
      subst hg2eq
      obtain ⟨accs, hacc⟩ := (except_isOk_iff _).mp
        ((setGenesisAccounts_isOk g2.accounts st.accounts).mpr hconv)
      obtain ⟨coolG, hc2⟩ := (except_isOk_iff _).mp hc
      obtain ⟨powG, hp2⟩ := (except_isOk_iff _).mp hp
      exact ⟨accs, hacc, coolG, hc2, powG, hp2, rfl⟩

/-- Witness for Claim C2: the example genesis document initializes normally,
and malformed genesis bytes halt initialization. -/
theorem initChainer_fatal_unless_all_ok_witness :
    (initChainer ChainState.initial (.wellFormed exampleGenesis)).isOk = true ∧
    (initChainer ChainState.initial (.malformed "not json")).isOk = false :=
  ⟨(initChainer_fatal_unless_all_ok ChainState.initial (.wellFormed exampleGenesis)).mpr
      ⟨exampleGenesis, rfl, by decide, by decide, by decide⟩,
    rfl⟩

/-- Claim C3: the six store-owning module keepers built by `NewDemocoinApp`
(account, cool, pow, ibc, staking, params) are constructed with pairwise
distinct store keys — no two modules share a store key. -/
theorem module_store_keys_pairwise_distinct (load : LoadResult) (app : DemocoinApp)
    (h : NewDemocoinApp load = .ok app) :
    app.moduleKeeperKeys.Pairwise (· ≠ ·) := by
  cases load with
  | ok =>
    have hb : NewDemocoinApp LoadResult.ok = .ok builtApp := rfl
    rw [hb] at h
    injection h with h2
    subst h2
    decide
  | failure e =>
    have hb : NewDemocoinApp (LoadResult.failure e) = .error e := rfl
    rw [hb] at h
    cases h

/-- Witness for Claim C3 at the successfully constructed application. -/
theorem module_store_keys_pairwise_distinct_witness :
    builtApp.moduleKeeperKeys.Pairwise (· ≠ ·) :=
  module_store_keys_pairwise_distinct LoadResult.ok builtApp rfl

/-- Counterexample to Claim C4 as stated: the params key is declared during
construction (line 72) but is not among the keys passed to `MountStores`
(line 99), so not every declared store key is mounted. -/
theorem declared_keys_not_all_mounted :
    builtApp.keyParams ∈ builtApp.declaredKeys ∧
    builtApp.keyParams ∉ builtApp.baseApp.mounted ∧
    builtApp.tkeyParams ∈ builtApp.declaredKeys ∧
    builtApp.tkeyParams ∉ builtApp.baseApp.mounted := by
  decide

/-- Claim C4 (amended): of the seven store keys declared during
construction, the main, account, pow, ibc and staking keys are mounted into
the persistence layer at startup, before the application is sealed; the
params and transient params keys are declared but never mounted. -/
theorem mounted_stores_at_startup (load : LoadResult) (app : DemocoinApp)
    (h : NewDemocoinApp load = .ok app) :
    app.baseApp.mounted =
      [app.capKeyMainStore, app.capKeyAccountStore, app.capKeyPowStore,
       app.capKeyIBCStore, app.capKeyStakingStore] ∧
    app.baseApp.isSealed = true ∧
    app.keyParams ∉ app.baseApp.mounted ∧
    app.tkeyParams ∉ app.baseApp.mounted := by
  cases load with
  | ok =>
    have hb : NewDemocoinApp LoadResult.ok = .ok builtApp := rfl
    rw [hb] at h
    injection h with h2
    subst h2
    decide
  | failure e =>
    have hb : NewDemocoinApp (LoadResult.failure e) = .error e := rfl
    rw [hb] at h
    cases h

/-- Witness for the amended Claim C4 at the successfully constructed
application. -/
theorem mounted_stores_at_startup_witness :
    builtApp.baseApp.mounted =
      [builtApp.capKeyMainStore, builtApp.capKeyAccountStore, builtApp.capKeyPowStore,
       builtApp.capKeyIBCStore, builtApp.capKeyStakingStore] ∧
    builtApp.baseApp.isSealed = true ∧
    builtApp.keyParams ∉ builtApp.baseApp.mounted ∧
    builtApp.tkeyParams ∉ builtApp.baseApp.mounted :=
  mounted_stores_at_startup LoadResult.ok builtApp rfl

/-- Claim C8: `ExportAppStateAndValidators` never populates its validators
return value — for every application state the returned validator list is
empty. -/
theorem export_validators_nil (st : ChainState) :
    (exportAppStateAndValidators st).validators = [] := rfl

/-- Claim C5: store keys, codec type registrations and routes are created
exactly once during construction, the codec registry and the application
are sealed before `NewDemocoinApp` returns, and any later attempt to
register a store, codec type or route fails with a configuration error and
returns the registry unchanged. -/
theorem sealing_enforcement (load : LoadResult) (app : DemocoinApp)
    (h : NewDemocoinApp load = .ok app) :
    app.baseApp.isSealed = true ∧ app.cdc.isSealed = true ∧
    app.baseApp.routes = ["bank", "ibc", "simplestaking"] ∧
    app.baseApp.routes.Nodup ∧ app.cdc.concreteTags.Nodup ∧ app.cdc.interfaces.Nodup ∧
    (∀ r, (app.baseApp.addRoute r).1.isOk = false ∧ (app.baseApp.addRoute r).2 = app.baseApp) ∧
    (∀ ks, (app.baseApp.mountStores ks).1.isOk = false ∧ (app.baseApp.mountStores ks).2 = app.baseApp) ∧
    (∀ tag, (app.cdc.registerConcrete tag).1.isOk = false ∧ (app.cdc.registerConcrete tag).2 = app.cdc) ∧
    (∀ cat, (app.cdc.registerInterface cat).1.isOk = false ∧ (app.cdc.registerInterface cat).2 = app.cdc) := by
  cases load with
  | ok =>
    have hb : NewDemocoinApp LoadResult.ok = .ok builtApp := rfl
    rw [hb] at h
    injection h with h2
    subst h2
    exact ⟨rfl, rfl, rfl, by decide, by decide, by decide,
      fun r => ⟨rfl, rfl⟩, fun ks => ⟨rfl, rfl⟩, fun tag => ⟨rfl, rfl⟩, fun cat => ⟨rfl, rfl⟩⟩
  | failure e =>
    have hb : NewDemocoinApp (LoadResult.failure e) = .error e := rfl
    rw [hb] at h
    cases h

/-- Witness for Claim C5: concrete post-seal registration attempts on the
constructed application all fail and leave the registries unchanged. -/
theorem sealing_enforcement_witness :
    builtApp.baseApp.isSealed = true ∧ builtApp.cdc.isSealed = true ∧
    (builtApp.baseApp.addRoute "cool").1.isOk = false ∧
    (builtApp.baseApp.addRoute "cool").2 = builtApp.baseApp ∧
    (builtApp.baseApp.mountStores [NewKVStoreKey "extra"]).1.isOk = false ∧
    (builtApp.baseApp.mountStores [NewKVStoreKey "extra"]).2 = builtApp.baseApp ∧
    (builtApp.cdc.registerConcrete "late/tag").1.isOk = false ∧
    (builtApp.cdc.registerConcrete "late/tag").2 = builtApp.cdc ∧
    (builtApp.cdc.registerInterface "late/category").1.isOk = false :=
  have h := sealing_enforcement LoadResult.ok builtApp rfl
  ⟨h.1, h.2.1, (h.2.2.2.2.2.2.1 "cool").1, (h.2.2.2.2.2.2.1 "cool").2,
    (h.2.2.2.2.2.2.2.1 [NewKVStoreKey "extra"]).1,
    (h.2.2.2.2.2.2.2.1 [NewKVStoreKey "extra"]).2,
    (h.2.2.2.2.2.2.2.2.1 "late/tag").1, (h.2.2.2.2.2.2.2.2.1 "late/tag").2,
    (h.2.2.2.2.2.2.2.2.2 "late/category").1⟩

/-- Claim C6: every transaction execution invokes the ante handler
configured at construction exactly once before route dispatch; when the
ante handler fails, no route handler runs and the transaction is rejected
with the error of the ante handler.  The last conjunct records that
`NewDemocoinApp` always configures the ante handler before sealing. -/
theorem ante_precedes_dispatch (ante : Tx → Except String Unit)
    (handlers : String → Option (Tx → TxResult)) (tx : Tx) :
    (runTx ante handlers tx).anteRuns = 1 ∧
    (∀ e, ante tx = .error e →
      (runTx ante handlers tx).handlerRan = false ∧
      (runTx ante handlers tx).result = .rejected e) ∧
    (∀ load app, NewDemocoinApp load = .ok app → app.baseApp.anteHandlerSet = true) := by
  refine ⟨?_, ?_, ?_⟩
  · cases hante : ante tx with
    | error e => simp [runTx, hante]
    | ok u => cases hh : handlers tx.route <;> simp [runTx, hante, hh]
  · intro e he
    simp [runTx, he]
  · intro load app h
    cases load with
    | ok =>
      have hb : NewDemocoinApp LoadResult.ok = .ok builtApp := rfl
      rw [hb] at h
      injection h with h2
      subst h2
      rfl
    | failure e2 =>
      have hb : NewDemocoinApp (LoadResult.failure e2) = .error e2 := rfl
      rw [hb] at h
      cases h

/-- An ante handler that rejects every transaction, used by the witness. -/
def rejectAllAnte : Tx → Except String Unit := fun _ => .error "unauthorized"

/-- A route table with a single bank handler, used by the witness. -/
def exampleHandlers : String → Option (Tx → TxResult) :=
  fun r => if r = "bank" then some (fun t => .done t.msg) else none

/-- An example transaction declaring the bank route. -/
def exampleTx : Tx := ⟨"bank", "send"⟩

/-- Witness for Claim C6 at a failing ante handler and a registered route. -/
theorem ante_precedes_dispatch_witness :
    (runTx rejectAllAnte exampleHandlers exampleTx).anteRuns = 1 ∧
    (runTx rejectAllAnte exampleHandlers exampleTx).handlerRan = false ∧
    (runTx rejectAllAnte exampleHandlers exampleTx).result = .rejected "unauthorized" ∧
    builtApp.baseApp.anteHandlerSet = true :=
  have h := ante_precedes_dispatch rejectAllAnte exampleHandlers exampleTx
  ⟨h.1, (h.2.1 "unauthorized" rfl).1, (h.2.1 "unauthorized" rfl).2,
    h.2.2 LoadResult.ok builtApp rfl⟩

/-- Claim C7: export produces exactly one boundary record per stored
account, holding that account its address and ordered coin list, and the
internal account representation maps losslessly to and from the boundary
shape: converting out and back in, or in and back out, is the identity. -/
theorem account_boundary (st : ChainState) (a : AppAccount) (g : GenesisAccount)
    (ha : a.address ≠ "") :
    (exportAppStateAndValidators st).appState.accounts =
      st.accounts.map AppAccount.toGenesisAccount ∧
    (a.toGenesisAccount).ToAppAccount = .ok a ∧
    (∀ b, g.ToAppAccount = .ok b → b.toGenesisAccount = g) := by
  refine ⟨rfl, ?_, ?_⟩
  · rw [AppAccount.toGenesisAccount, GenesisAccount.ToAppAccount, if_neg ha]
  · intro b hb
    by_cases hga : g.address = ""
    · rw [GenesisAccount.ToAppAccount, if_pos hga] at hb
      cases hb
    · rw [GenesisAccount.ToAppAccount, if_neg hga] at hb
      injection hb with hb2
      rw [← hb2]
      rfl

/-- Witness for Claim C7 at the example accounts of the spec. -/
theorem account_boundary_witness :
    (exportAppStateAndValidators exampleInitState).appState.accounts =
      exampleInitState.accounts.map AppAccount.toGenesisAccount ∧
    ((⟨"addr1", [⟨"mycoin", 100⟩]⟩ : AppAccount).toGenesisAccount).ToAppAccount =
      .ok ⟨"addr1", [⟨"mycoin", 100⟩]⟩ ∧
    ((⟨"addr2", []⟩ : GenesisAccount).ToAppAccount = .ok ⟨"addr2", []⟩ →
      (⟨"addr2", []⟩ : AppAccount).toGenesisAccount = ⟨"addr2", []⟩) :=
  have h := account_boundary exampleInitState ⟨"addr1", [⟨"mycoin", 100⟩]⟩
    ⟨"addr2", []⟩ (by decide)
  ⟨h.1, h.2.1, h.2.2 ⟨"addr2", []⟩⟩

/-- Claim C9: the exported genesis document depends only on the accounts,
pow and cool module state — the ibc and staking stores are never read by
export — and initialization never writes the ibc or staking stores, so an
export-then-reimport round trip does not preserve them. -/
theorem export_reads_only_persisted_modules (s1 s2 : ChainState)
    (hacc : s1.accounts = s2.accounts) (hpow : s1.powState = s2.powState)
    (hcool : s1.coolState = s2.coolState) :
    (exportAppStateAndValidators s1).appState = (exportAppStateAndValidators s2).appState ∧
    (∀ st st2 req, initChainer st req = .ok st2 →
      st2.ibcState = st.ibcState ∧ st2.stakingState = st.stakingState) := by
  constructor
  · simp [exportAppStateAndValidators, powExportGenesis, coolExportGenesis,
      hacc, hpow, hcool]
  · intro st st2 req h
    cases req with
    | malformed m =>
      simp [initChainer, unmarshalGenesis, Bind.bind, Except.bind] at h
    | wellFormed g =>
      have h1 : initChainer st (.wellFormed g) =
          (setGenesisAccounts st.accounts g.accounts >>= fun accs =>
           coolInitGenesis g.coolGenesis >>= fun coolG =>
           powInitGenesis g.powGenesis >>= fun powG =>
           Except.ok { st with accounts := accs, coolState := some coolG, powState := some powG }) := rfl
      rw [h1] at h
      cases hs : setGenesisAccounts st.accounts g.accounts with
      | error e =>
        rw [hs] at h
        simp [Bind.bind, Except.bind] at h
      | ok accs =>
        rw [hs] at h
        cases hc : coolInitGenesis g.coolGenesis with
        | error e =>
          rw [hc] at h
          simp [Bind.bind, Except.bind] at h
        | ok coolG =>
          rw [hc] at h
          cases hp : powInitGenesis g.powGenesis with
          | error e =>
            rw [hp] at h
            simp [Bind.bind, Except.bind] at h
          | ok powG =>
            rw [hp] at h
            simp only [Bind.bind, Except.bind, Except.ok.injEq] at h
            rw [← h]
            exact ⟨rfl, rfl⟩

/-- A state equal to the example post-genesis state except for nonempty ibc
and staking stores, used by the witness. -/
def stateWithIBC : ChainState :=
  { exampleInitState with ibcState := ["packet-1"], stakingState := ["bond-1"] }

/-- Witness for Claim C9: export ignores the ibc and staking entries, and
the example initialization leaves both stores as it found them. -/
theorem export_reads_only_persisted_modules_witness :
    (exportAppStateAndValidators stateWithIBC).appState =
      (exportAppStateAndValidators exampleInitState).appState ∧
    (exampleInitState.ibcState = ChainState.initial.ibcState ∧
     exampleInitState.stakingState = ChainState.initial.stakingState) :=
  have h := export_reads_only_persisted_modules stateWithIBC exampleInitState rfl rfl rfl
  ⟨h.1, h.2 ChainState.initial exampleInitState (.wellFormed exampleGenesis) rfl⟩

/-- Claim C10: `NewDemocoinApp` either returns a fully constructed, sealed
application — which happens exactly when loading the latest persisted
version succeeds — or halts the process with the load error (modelled as
the `.error` outcome), never returning a partially constructed
application. -/
theorem construction_all_or_nothing (load : LoadResult) :
    (∀ e, load = .failure e → NewDemocoinApp load = .error e) ∧
    (load = .ok → NewDemocoinApp load = .ok builtApp ∧ builtApp.baseApp.isSealed = true ∧
      builtApp.baseApp.anteHandlerSet = true ∧ builtApp.baseApp.initChainerSet = true) := by
  cases load with
  | ok =>
    exact ⟨fun e he => LoadResult.noConfusion he, fun _ => ⟨rfl, rfl, rfl, rfl⟩⟩
  | failure e2 =>
    refine ⟨fun e he => ?_, fun hcontra => LoadResult.noConfusion hcontra⟩
    injection he with h3
    subst h3
    rfl

/-- Witness for Claim C10 at a concrete load failure and a successful
load. -/
theorem construction_all_or_nothing_witness :
    NewDemocoinApp (LoadResult.failure "load failed") = .error "load failed" ∧
    NewDemocoinApp LoadResult.ok = .ok builtApp :=
  ⟨(construction_all_or_nothing (LoadResult.failure "load failed")).1 "load failed" rfl,
    ((construction_all_or_nothing LoadResult.ok).2 rfl).1⟩

end XpxCosmos
